import Mathlib

/-!
Shallow embedding of `src/EvolutionSimulator.py`.

Modelling conventions:
* Python floats are modelled by `ℚ` (all arithmetic the program performs on
  them — addition, subtraction, multiplication, division, clamping — is exact
  rational arithmetic except for the square root in `distance_to`).
* The Euclidean distance `distance_to` involves a square root, which is
  irrational in general.  All *comparisons* of distances in the source
  (`min(..., key=distance)` selection and the `<= 10` threshold test) are
  modelled by the equivalent comparisons of squared distances, which is
  faithful because `Real.sqrt` is strictly monotone on nonnegative inputs.
  The one place the numeric *value* of a distance is used — the step
  computation of `moveTowards` — takes the distance as an explicit argument
  (an oracle `sq : ℚ → ℚ` mapping a squared distance to its square root);
  theorems that depend on the value constrain the oracle by the hypotheses
  `0 ≤ sq s` and `(sq s) ^ 2 = s`.
* Calls to Python's `random` module are modelled by explicit randomness
  arguments; the range guarantees of `random.randint(a, b)` /
  `random.uniform(a, b)` become hypotheses where a claim needs them.
* Python `int()` truncates toward zero and `//` is floor division; both are
  modelled explicitly (`pyInt`, and `Int.floor` for `//`).
* Python's `for` loop over a list that is mutated during iteration is
  modelled by an index-driven loop (`manageLoop`): the iterator keeps an
  index into the *current* list, exactly as CPython does, so removals shift
  later elements and appended elements are visited.
* `list.remove(x)` with object identity (no custom `__eq__`) removes exactly
  the slot holding the object, modelled by `List.eraseIdx` at the object's
  known index.
-/

set_option maxRecDepth 4000

/-- SCREEN_WIDTH from the source. -/
def SCREEN_WIDTH : ℚ := 800

/-- SCREEN_HEIGHT from the source. -/
def SCREEN_HEIGHT : ℚ := 600

/-- REPRODUCTION_DISTANCE_THRESHOLD from the source. -/
def REPRODUCTION_DISTANCE_THRESHOLD : ℚ := 10

/-- ENERGY_THRESHOLD_FOR_DEATH from the source. -/
def ENERGY_THRESHOLD_FOR_DEATH : ℚ := -300

/-- REPRODUCTION_COOLDOWN from the source. -/
def REPRODUCTION_COOLDOWN : ℤ := 275

/-- The two values of the `gender` attribute. -/
inductive Gender where
  | male : Gender
  | female : Gender
deriving DecidableEq

/-- A 2D position, a pair of (possibly fractional) coordinates. -/
abbrev Point := ℚ × ℚ

/-- The `Food` class: an energy content and a position. -/
structure Food where
  energyContent : ℚ
  position : Point
deriving DecidableEq

/-- The mutable state of a `Creature` object (the `ecosystem` back-reference
is replaced by passing the ecosystem state explicitly). -/
structure Creature where
  energy : ℚ
  position : Point
  gender : Gender
  generation : ℕ
  hunger : ℤ
  speed : ℚ
  reproduction_cooldown : ℤ
deriving DecidableEq

/-- `Creature.__init__` with the gender argument already resolved (the caller
supplies the result of `random.choice(['male','female'])` when the source
passes `gender=None`): `hunger = 0`, `speed = 1`, `reproduction_cooldown = 0`. -/
def Creature.init (energy : ℚ) (position : Point) (gender : Gender)
    (generation : ℕ) : Creature :=
  { energy := energy, position := position, gender := gender,
    generation := generation, hunger := 0, speed := 1,
    reproduction_cooldown := 0 }

/-- The two collections owned by the `Ecosystem`. -/
structure EcoState where
  creatures : List Creature
  foods : List Food
deriving DecidableEq

/-- Python `int()` applied to a rational: truncation toward zero. -/
def pyInt (q : ℚ) : ℤ := if 0 ≤ q then ⌊q⌋ else ⌈q⌉

/-- Squared Euclidean distance; `Creature.distance_to` is its square root. -/
def dist_sq (p q : Point) : ℚ := (p.1 - q.1) ^ 2 + (p.2 - q.2) ^ 2

/-- `Creature.adjust_speed_based_on_hunger`:
`self.speed = min(5, 1 + self.hunger / 100)`. -/
def Creature.adjust_speed_based_on_hunger (c : Creature) : Creature :=
  { c with speed := min 5 (1 + (c.hunger : ℚ) / 100) }

/-- `Creature.update` without the death side effect: increment hunger, adjust
speed, decrement a positive cooldown, subtract the metabolic cost 0.5.  The
death check `energy <= ENERGY_THRESHOLD_FOR_DEATH` (which calls `die()`,
removing the creature from the ecosystem collection) is performed by the
caller `manageBody` on the returned state, since it mutates the collection. -/
def Creature.update (c : Creature) : Creature :=
  let c1 := { c with hunger := c.hunger + 1 }
  let c2 := c1.adjust_speed_based_on_hunger
  let c3 := if c2.reproduction_cooldown > 0 then
      { c2 with reproduction_cooldown := c2.reproduction_cooldown - 1 }
    else c2
  { c3 with energy := c3.energy - 1/2 }

/-- `Creature.moveRandomly` with the two `random.randint(-10, 10)` draws
passed in as `dx`, `dy`: displace and clamp to the screen bounds. -/
def Creature.moveRandomly (c : Creature) (dx dy : ℤ) : Creature :=
  { c with position :=
      (max 0 (min SCREEN_WIDTH (c.position.1 + (dx : ℚ))),
       max 0 (min SCREEN_HEIGHT (c.position.2 + (dy : ℚ)))) }

/-- `Creature.moveTowards` with the Euclidean distance to the target passed
in as `dist` (its value is irrational in general; see the module comment).
The source floors the divisor at 1: `distance = max(1, distance_to(target))`. -/
def Creature.moveTowards (c : Creature) (target : Point) (dist : ℚ) : Creature :=
  let dx := target.1 - c.position.1
  let dy := target.2 - c.position.2
  let d := max 1 dist
  let step_x := dx / d * c.speed
  let step_y := dy / d * c.speed
  { c with position :=
      (max 0 (min SCREEN_WIDTH (c.position.1 + step_x)),
       max 0 (min SCREEN_HEIGHT (c.position.2 + step_y))) }

/-- `Creature.eat_food`: gain the food's energy, reduce hunger by 50 floored
at 0. -/
def Creature.eat_food (c : Creature) (f : Food) : Creature :=
  { c with energy := c.energy + f.energyContent,
           hunger := max 0 (c.hunger - 50) }

/-- `Food.isOverlapping`: axis-aligned box test, both coordinate differences
strictly below 10. -/
def Food.isOverlapping (f : Food) (p : Point) : Prop :=
  |f.position.1 - p.1| < 10 ∧ |f.position.2 - p.2| < 10

instance (f : Food) (p : Point) : Decidable (f.isOverlapping p) := by
  unfold Food.isOverlapping; infer_instance

/-- Randomness consumed for one offspring: the `random.uniform(0.9, 1.1)`
energy multiplier, the `random.random() < 0.5` mutation coin, the
`random.uniform(0.8, 1.2)` speed mutation factor, and the gender drawn by
`Creature.__init__`. -/
structure OffRand where
  u : ℚ
  mutate : Bool
  factor : ℚ
  gender : Gender

/-- Randomness consumed by one `reproduce` call: the `random.randint(1, 3)`
offspring count and per-offspring draws. -/
structure ReproRand where
  count : ℕ
  off : ℕ → OffRand

/-- `Creature.reproduce`, returning (self after, other after, offspring
appended to the ecosystem collection).  Guard: same gender or a positive
cooldown on either side returns with no change.  Offspring position uses
Python floor division `//`; offspring energy is
`max(10, int((eA+eB)/4 * u))`; offspring speed is the parents' average,
multiplied by the mutation factor when the coin comes up. -/
def Creature.reproduce (a b : Creature) (r : ReproRand) :
    Creature × Creature × List Creature :=
  if a.gender = b.gender ∨ a.reproduction_cooldown > 0 ∨
      b.reproduction_cooldown > 0 then
    (a, b, [])
  else
    let a1 := { a with reproduction_cooldown := REPRODUCTION_COOLDOWN }
    let b1 := { b with reproduction_cooldown := REPRODUCTION_COOLDOWN }
    let offs := (List.range r.count).map (fun k =>
      let rk := r.off k
      let new_position : Point :=
        ((⌊(a.position.1 + b.position.1) / 2⌋ : ℤ),
         (⌊(a.position.2 + b.position.2) / 2⌋ : ℤ))
      let new_energy : ℤ := max 10 (pyInt ((a.energy + b.energy) / 4 * rk.u))
      let base_speed := (a.speed + b.speed) / 2
      let new_speed := if rk.mutate then base_speed * rk.factor else base_speed
      let c := Creature.init (new_energy : ℚ) new_position rk.gender
        (a.generation + 1)
      { c with speed := new_speed })
    (a1, b1, offs)

/-- Python's `min(indices, key=key)`: left fold keeping the first index whose
key is minimal (a later index replaces the current best only when its key is
strictly smaller — exactly CPython's `min`). -/
def pyMinIdx (key : ℕ → ℚ) (l : List ℕ) : Option ℕ :=
  l.foldl (fun acc j =>
    match acc with
    | none => some j
    | some m => if key j < key m then some j else some m) none

/-- Index into the creature list with a dummy default (used only at indices
produced by `List.range`, always in bounds). -/
def getC (cs : List Creature) (j : ℕ) : Creature :=
  (cs.get? j).getD (Creature.init 0 (0, 0) Gender.male 0)

/-- Index into the food list with a dummy default. -/
def getF (fs : List Food) (j : ℕ) : Food :=
  (fs.get? j).getD ⟨0, (0, 0)⟩

/-- Randomness consumed by one creature's `seekFood` call: the
`moveRandomly` displacements and the `reproduce` draws (each call consumes
only the part its control path reaches). -/
structure SeekRand where
  dx : ℤ
  dy : ℤ
  repro : ReproRand

/-- The foraging tail of `Creature.seekFood`: select the nearest food
(first minimal squared distance, matching Python `min`), move towards it,
and if the moved position overlaps the target, eat it and remove it from the
food collection. -/
def seekFoodForage (sq : ℚ → ℚ) (c : Creature) (st : EcoState) :
    Creature × EcoState :=
  match pyMinIdx (fun j => dist_sq c.position (getF st.foods j).position)
      (List.range st.foods.length) with
  | none => (c, st)
  | some j =>
    let target := getF st.foods j
    let c2 := c.moveTowards target.position
      (sq (dist_sq c.position target.position))
    if target.isOverlapping c2.position then
      (c2.eat_food target, { st with foods := st.foods.eraseIdx j })
    else
      (c2, st)

/-- `Creature.seekFood`: with no food, move randomly and return (this early
return precedes the mating check).  Otherwise, if hungry (`hunger >= 50`)
and off cooldown, filter the ecosystem's creatures for opposite-gender,
off-cooldown partners (the creature itself never passes the gender test),
take the nearest, and when it is within the reproduction distance threshold
(distance `<= 10`, i.e. squared distance `<= 100`) reproduce with it —
writing the partner's new state back at its index and appending the
offspring — and return.  Otherwise forage. -/
def seekFood (sq : ℚ → ℚ) (r : SeekRand) (c : Creature) (st : EcoState) :
    Creature × EcoState :=
  if st.foods.isEmpty then
    (c.moveRandomly r.dx r.dy, st)
  else
    let partnerIdx : Option ℕ :=
      if 50 ≤ c.hunger ∧ c.reproduction_cooldown ≤ 0 then
        pyMinIdx (fun j => dist_sq c.position (getC st.creatures j).position)
          ((List.range st.creatures.length).filter (fun j =>
            decide ((getC st.creatures j).gender ≠ c.gender) &&
            decide ((getC st.creatures j).reproduction_cooldown ≤ 0)))
      else none
    match partnerIdx with
    | some j =>
      if dist_sq c.position (getC st.creatures j).position ≤
          REPRODUCTION_DISTANCE_THRESHOLD ^ 2 then
        let res := c.reproduce (getC st.creatures j) r.repro
        (res.1, { st with
          creatures := (st.creatures.set j res.2.1) ++ res.2.2 })
      else
        seekFoodForage sq c st
    | none =>
      seekFoodForage sq c st

/-- One iteration of the loop body of `Ecosystem.manage` for the creature at
index `i`: `creature.update()` (whose death check removes the creature from
the collection when its energy reaches the threshold — `die()` removes
exactly the object's slot), followed unconditionally by
`creature.seekFood(self.foods)` — the source calls `seekFood` on the object
even when `update` just removed it from the collection, in which case the
object's own post-`seekFood` state is not written back (it is no longer in
the list) but the side effects of `seekFood` on the shared collections
(food removal, partner cooldown, offspring appends) still happen. -/
def manageBody (sq : ℚ → ℚ) (r : SeekRand) (st : EcoState) (i : ℕ) : EcoState :=
  match st.creatures.get? i with
  | none => st
  | some c =>
    let c1 := c.update
    if c1.energy ≤ ENERGY_THRESHOLD_FOR_DEATH then
      let st1 : EcoState :=
        { st with creatures := (st.creatures.set i c1).eraseIdx i }
      (seekFood sq r c1 st1).2
    else
      let st1 : EcoState := { st with creatures := st.creatures.set i c1 }
      let res := seekFood sq r c1 st1
      { res.2 with creatures := res.2.creatures.set i res.1 }

/-- The `for creature in self.creatures` loop of `Ecosystem.manage`, with
CPython's list-iterator semantics: an index into the current list, advanced
by one each iteration, stopping as soon as it reaches the current length.
`fuel` is an upper bound on the number of iterations (the loop stops by its
own condition; theorems supply enough fuel). -/
def manageLoop (sq : ℚ → ℚ) (rs : ℕ → SeekRand) :
    ℕ → EcoState → ℕ → EcoState
  | 0, st, _ => st
  | fuel + 1, st, i =>
    if i < st.creatures.length then
      manageLoop sq rs fuel (manageBody sq (rs i) st i) (i + 1)
    else st

/-- Randomness for one spawned food item: `random.randint(3, 7)` energy and
the two `random.randint(0, SCREEN_* - 10)` coordinates. -/
structure FoodRand where
  e : ℤ
  x : ℤ
  y : ℤ

/-- Build the `Food` object from one draw. -/
def mkFood (fr : FoodRand) : Food := ⟨(fr.e : ℚ), ((fr.x : ℚ), (fr.y : ℚ))⟩

/-- The `while len(self.foods) < max_food_count` loop of
`Ecosystem.spawn_food`, consuming the draw stream from index `k`; the fuel
equals the number of missing items, and the guard re-checks the length each
iteration exactly as the `while` does. -/
def spawnAux (fr : ℕ → FoodRand) : ℕ → ℕ → List Food → List Food
  | 0, _, fs => fs
  | fuel + 1, k, fs =>
    if fs.length < 50 then
      spawnAux fr fuel (k + 1) (fs ++ [mkFood (fr k)])
    else fs

/-- `Ecosystem.spawn_food`: top the food collection up to the cap of 50. -/
def spawn_food (fs : List Food) (fr : ℕ → FoodRand) : List Food :=
  spawnAux fr (50 - fs.length) 0 fs

/-- `Ecosystem.manage`: iterate the creature loop, then spawn food. -/
def manage (sq : ℚ → ℚ) (rs : ℕ → SeekRand) (fr : ℕ → FoodRand)
    (fuel : ℕ) (st : EcoState) : EcoState :=
  let st1 := manageLoop sq rs fuel st 0
  { st1 with foods := spawn_food st1.foods fr }

/-- A position inside the world bounds. -/
def inBounds (p : Point) : Prop :=
  0 ≤ p.1 ∧ p.1 ≤ SCREEN_WIDTH ∧ 0 ≤ p.2 ∧ p.2 ≤ SCREEN_HEIGHT

/-! Concrete scenario data used by the end-to-end claims and witnesses. -/

/-- A sample creature used by witnesses: founder-like state, in bounds. -/
def sampleA : Creature :=
  { energy := 100, position := (50, 40), gender := Gender.male,
    generation := 0, hunger := 0, speed := 1, reproduction_cooldown := 0 }

/-- A sample opposite-gender creature used by witnesses. -/
def sampleB : Creature :=
  { energy := 80, position := (55, 40), gender := Gender.female,
    generation := 2, hunger := 0, speed := 1, reproduction_cooldown := 0 }

/-- A sample creature of the same gender as `sampleA`. -/
def sampleSameGender : Creature :=
  { energy := 70, position := (60, 40), gender := Gender.male,
    generation := 0, hunger := 5, speed := 1, reproduction_cooldown := 0 }

/-- Sample reproduction randomness: two offspring, neutral draws. -/
def sampleRepro : ReproRand := ⟨2, fun _ => ⟨1, false, 1, Gender.female⟩⟩

/-- Sample food-spawn randomness: constant in-range draws. -/
def sampleFoodRand : ℕ → FoodRand := fun _ => ⟨5, 100, 100⟩

/-- Scenario for C1: a creature whose energy crosses the death threshold on
this tick (−299.5 − 0.5 = −300), sitting on top of the only food item. -/
def c1creature : Creature :=
  { energy := -599/2, position := (0, 0), gender := Gender.male,
    generation := 0, hunger := 0, speed := 1, reproduction_cooldown := 0 }

/-- The single food item of the C1 scenario, at the creature's position. -/
def c1food : Food := ⟨5, (0, 0)⟩

/-- Distance oracle for the C1 scenario: the only squared distance taken is
0, whose square root is 0. -/
def c1sq : ℚ → ℚ := fun _ => 0

/-- Randomness for the C1 scenario (none of it ends up mattering). -/
def c1rand : ℕ → SeekRand :=
  fun _ => ⟨10, 10, ⟨1, fun _ => ⟨1, false, 1, Gender.male⟩⟩⟩

/-- Food-spawn randomness for the C1 scenario: constant draws, all different
from `c1food`. -/
def c1foodRand : ℕ → FoodRand := fun _ => ⟨3, 20, 20⟩

/-- Initial state of the C1 scenario. -/
def c1state : EcoState := ⟨[c1creature], [c1food]⟩

/-- The C1 scenario after one tick of `manage`. -/
def c1result : EcoState := manage c1sq c1rand c1foodRand 5 c1state

/-- Scenario for C4: first of two opposite-gender creatures, hunger 60,
cooldown 0, 5 units apart. -/
def c4a : Creature :=
  { energy := 100, position := (100, 100), gender := Gender.male,
    generation := 0, hunger := 60, speed := 1, reproduction_cooldown := 0 }

/-- Second creature of the C4 scenario. -/
def c4b : Creature :=
  { energy := 100, position := (105, 100), gender := Gender.female,
    generation := 0, hunger := 60, speed := 1, reproduction_cooldown := 0 }

/-- Distance oracle for the C4 scenario (never consulted: no food). -/
def c4sq : ℚ → ℚ := fun _ => 0

/-- Randomness for the C4 scenario: zero displacements. -/
def c4rand : ℕ → SeekRand :=
  fun _ => ⟨0, 0, ⟨1, fun _ => ⟨1, false, 1, Gender.male⟩⟩⟩

/-- Food-spawn randomness for the C4 scenario. -/
def c4foodRand : ℕ → FoodRand := fun _ => ⟨3, 20, 20⟩

/-- Initial state of the C4 scenario: two creatures, no food. -/
def c4state : EcoState := ⟨[c4a, c4b], []⟩

/-- The C4 scenario after one tick of `manage`. -/
def c4result : EcoState := manage c4sq c4rand c4foodRand 5 c4state

/-- First parent of the C8 scenario, at x = 0. -/
def c8a : Creature :=
  { energy := 100, position := (0, 0), gender := Gender.male,
    generation := 0, hunger := 0, speed := 1, reproduction_cooldown := 0 }

/-- Second parent of the C8 scenario, at x = 5 (odd coordinate sum). -/
def c8b : Creature :=
  { energy := 100, position := (5, 0), gender := Gender.female,
    generation := 0, hunger := 0, speed := 1, reproduction_cooldown := 0 }

/-- Reproduction randomness for the C8 scenario: one offspring. -/
def c8r : ReproRand := ⟨1, fun _ => ⟨1, false, 1, Gender.male⟩⟩

/-- Scenario for C9: single creature, hunger 0, energy 100. -/
def c9creature : Creature :=
  { energy := 100, position := (100, 100), gender := Gender.male,
    generation := 0, hunger := 0, speed := 1, reproduction_cooldown := 0 }

/-- The single food item of the C9 scenario, 200 units directly east. -/
def c9food : Food := ⟨5, (300, 100)⟩

/-- Distance oracle for the C9 scenario: the only squared distance taken is
200² = 40000, whose square root is 200. -/
def c9sq : ℚ → ℚ := fun s => if s = 40000 then 200 else 0

/-- Randomness for the C9 scenario (never consulted on this path). -/
def c9rand : ℕ → SeekRand :=
  fun _ => ⟨0, 0, ⟨1, fun _ => ⟨1, false, 1, Gender.male⟩⟩⟩

/-- Food-spawn randomness for the C9 scenario. -/
def c9foodRand : ℕ → FoodRand := fun _ => ⟨3, 20, 20⟩

/-- Initial state of the C9 scenario. -/
def c9state : EcoState := ⟨[c9creature], [c9food]⟩

/-- The C9 scenario after one tick of `manage`. -/
def c9result : EcoState := manage c9sq c9rand c9foodRand 5 c9state

/-! Helper lemmas about the embedded operations. -/

/-- Normal form of `Creature.update`: all five field effects at once. -/
theorem Creature.update_eq (c : Creature) :
    c.update =
      { energy := c.energy - 1/2, position := c.position, gender := c.gender,
        generation := c.generation, hunger := c.hunger + 1,
        speed := min 5 (1 + ((c.hunger + 1 : ℤ) : ℚ) / 100),
        reproduction_cooldown :=
          if c.reproduction_cooldown > 0 then c.reproduction_cooldown - 1
          else c.reproduction_cooldown } := by
  simp only [Creature.update, Creature.adjust_speed_based_on_hunger]
  split <;> rfl

/-- Unfolding of one `manage`-loop iteration. -/
theorem manageLoop_succ (sq : ℚ → ℚ) (rs : ℕ → SeekRand) (fuel : ℕ)
    (st : EcoState) (i : ℕ) :
    manageLoop sq rs (fuel + 1) st i =
      if i < st.creatures.length then
        manageLoop sq rs fuel (manageBody sq (rs i) st i) (i + 1)
      else st := rfl

/-- `manageBody` when the creature survives its update: the updated creature
is written back, `seekFood` runs, and its resulting self-state is written
back again. -/
theorem manageBody_alive (sq : ℚ → ℚ) (r : SeekRand) (st : EcoState) (i : ℕ)
    (c : Creature) (hc : st.creatures.get? i = some c)
    (hl : ¬ c.update.energy ≤ ENERGY_THRESHOLD_FOR_DEATH) :
    manageBody sq r st i =
      { (seekFood sq r c.update
          { st with creatures := st.creatures.set i c.update }).2 with
        creatures :=
          (seekFood sq r c.update
            { st with creatures := st.creatures.set i c.update }).2.creatures.set
            i
            (seekFood sq r c.update
              { st with creatures := st.creatures.set i c.update }).1 } := by
  simp only [manageBody, hc, if_neg hl]

/-- `manageBody` when the creature dies during its update: `die()` removes
its slot from the collection, and `seekFood` is still invoked on the dead
object — only the shared-state effects of that call survive. -/
theorem manageBody_dead (sq : ℚ → ℚ) (r : SeekRand) (st : EcoState) (i : ℕ)
    (c : Creature) (hc : st.creatures.get? i = some c)
    (hd : c.update.energy ≤ ENERGY_THRESHOLD_FOR_DEATH) :
    manageBody sq r st i =
      (seekFood sq r c.update
        { st with creatures := (st.creatures.set i c.update).eraseIdx i }).2 := by
  simp only [manageBody, hc, if_pos hd]

/-- With no food, `seekFood` moves randomly and returns at once — before the
mating check is ever reached. -/
theorem seekFood_noFood (sq : ℚ → ℚ) (r : SeekRand) (c : Creature)
    (st : EcoState) (hf : st.foods = []) :
    seekFood sq r c st = (c.moveRandomly r.dx r.dy, st) := by
  simp [seekFood, hf]

/-- With food present but hunger below 50, `seekFood` goes straight to
foraging. -/
theorem seekFood_notHungry (sq : ℚ → ℚ) (r : SeekRand) (c : Creature)
    (st : EcoState) (hf : st.foods.isEmpty = false) (hh : c.hunger < 50) :
    seekFood sq r c st = seekFoodForage sq c st := by
  simp only [seekFood, hf, Bool.false_eq_true, if_false]
  rw [if_neg (by omega : ¬ (50 ≤ c.hunger ∧ c.reproduction_cooldown ≤ 0))]

/-- Foraging with a single food item: move towards it, then eat it exactly
when the moved position overlaps it. -/
theorem seekFoodForage_single (sq : ℚ → ℚ) (c : Creature) (st : EcoState)
    (f : Food) (hf : st.foods = [f]) :
    seekFoodForage sq c st =
      if f.isOverlapping
          ((c.moveTowards f.position
            (sq (dist_sq c.position f.position))).position) then
        ((c.moveTowards f.position
            (sq (dist_sq c.position f.position))).eat_food f,
         { st with foods := [] })
      else
        (c.moveTowards f.position (sq (dist_sq c.position f.position)), st) := by
  simp only [seekFoodForage, hf, List.length_cons, List.length_nil,
    List.range_succ, List.range_zero, List.nil_append, pyMinIdx,
    List.foldl_cons, List.foldl_nil, getF, List.get?, Option.getD_some,
    List.eraseIdx]

/-- `manageBody` for a surviving creature when no food is present: the
creature just moves randomly; nothing else changes. -/
theorem manageBody_alive_noFood (sq : ℚ → ℚ) (r : SeekRand) (st : EcoState)
    (i : ℕ) (c : Creature) (hc : st.creatures.get? i = some c)
    (hl : ¬ c.update.energy ≤ ENERGY_THRESHOLD_FOR_DEATH)
    (hf : st.foods = []) :
    manageBody sq r st i =
      ⟨st.creatures.set i (c.update.moveRandomly r.dx r.dy), []⟩ := by
  rw [manageBody_alive sq r st i c hc hl,
    seekFood_noFood sq r c.update _ (by simpa using hf)]
  simp [List.set_set, hf]

/-- `spawnAux` only appends, and every appended item comes from the draw
stream. -/
theorem spawnAux_append (fr : ℕ → FoodRand) :
    ∀ fuel k fs, ∃ t, spawnAux fr fuel k fs = fs ++ t ∧
      ∀ f ∈ t, ∃ j, f = mkFood (fr j) := by
  intro fuel
  induction fuel with
  | zero => exact fun k fs => ⟨[], by simp [spawnAux], by simp⟩
  | succ n ih =>
    intro k fs
    by_cases h : fs.length < 50
    · obtain ⟨t, ht, hm⟩ := ih (k + 1) (fs ++ [mkFood (fr k)])
      refine ⟨mkFood (fr k) :: t, ?_, ?_⟩
      · rw [spawnAux, if_pos h, ht]
        simp
      · intro f hf
        rcases List.mem_cons.mp hf with h1 | h1
        · exact ⟨k, h1⟩
        · exact hm f h1
    · exact ⟨[], by rw [spawnAux, if_neg h]; simp, by simp⟩

/-- `spawnAux` with fuel equal to the missing count tops up to exactly 50. -/
theorem spawnAux_length (fr : ℕ → FoodRand) :
    ∀ fuel k fs, fs.length + fuel = 50 → (spawnAux fr fuel k fs).length = 50 := by
  intro fuel
  induction fuel with
  | zero => intro k fs h; simpa [spawnAux] using h
  | succ n ih =>
    intro k fs h
    have hlt : fs.length < 50 := by omega
    rw [spawnAux, if_pos hlt]
    exact ih (k + 1) (fs ++ [mkFood (fr k)]) (by simp; omega)

/-- Clamping to `[0, M]` lands in `[0, M]`. -/
theorem clamp_bounds (M v : ℚ) (hM : 0 ≤ M) :
    0 ≤ max 0 (min M v) ∧ max 0 (min M v) ≤ M :=
  ⟨le_max_left 0 _, max_le hM (min_le_left _ _)⟩

/-- Clamping to an interval containing `x` moves a point no further from `x`
than it already was. -/
theorem clamp_close (M x v : ℚ) (h0 : 0 ≤ x) (hM : x ≤ M) :
    |max 0 (min M v) - x| ≤ |v - x| := by
  rcases le_total v 0 with hv | hv
  · rw [min_eq_right (le_trans hv (le_trans h0 hM)), max_eq_left hv,
      abs_of_nonpos (by linarith), abs_of_nonpos (by linarith)]
    linarith
  · rcases le_total M v with hMv | hMv
    · rw [min_eq_left hMv, max_eq_right (le_trans h0 hM),
        abs_of_nonneg (by linarith), abs_of_nonneg (by linarith)]
      linarith
    · rw [min_eq_right hMv, max_eq_right hv]

/-! Claim theorems. -/

/-- Claim C2 (confirmed): for every successful call to `reproduce` (genders
differ, both cooldowns 0 at entry), both participants' cooldown equals
exactly 275 afterwards, between 1 and 3 offspring are produced (the count is
`random.randint(1, 3)`), each with generation = initiating parent's
generation + 1 and energy at least 10 regardless of parent energies or the
random multiplier. -/
theorem claim2_reproduce_success_postconditions (a b : Creature) (r : ReproRand)
    (hg : a.gender ≠ b.gender) (ha : a.reproduction_cooldown = 0)
    (hb : b.reproduction_cooldown = 0) (h1 : 1 ≤ r.count) (h3 : r.count ≤ 3) :
    (a.reproduce b r).1.reproduction_cooldown = 275 ∧
    (a.reproduce b r).2.1.reproduction_cooldown = 275 ∧
    1 ≤ (a.reproduce b r).2.2.length ∧ (a.reproduce b r).2.2.length ≤ 3 ∧
    ∀ off ∈ (a.reproduce b r).2.2,
      off.generation = a.generation + 1 ∧ (10 : ℚ) ≤ off.energy := by
  have hguard : ¬ (a.gender = b.gender ∨ a.reproduction_cooldown > 0 ∨
      b.reproduction_cooldown > 0) := by
    push_neg
    exact ⟨hg, by omega, by omega⟩
  simp only [Creature.reproduce, if_neg hguard, List.length_map,
    List.length_range, List.mem_map, List.mem_range, REPRODUCTION_COOLDOWN]
  refine ⟨trivial, trivial, h1, h3, ?_⟩
  rintro off ⟨k, hk, rfl⟩
  refine ⟨rfl, ?_⟩
  show (10 : ℚ) ≤ ((max 10 (pyInt ((a.energy + b.energy) / 4 * (r.off k).u)) : ℤ) : ℚ)
  exact_mod_cast le_max_left _ _

/-- Witness for C2 at a concrete successful call. -/
theorem claim2_witness :
    (sampleA.gender ≠ sampleB.gender ∧ sampleA.reproduction_cooldown = 0 ∧
      sampleB.reproduction_cooldown = 0 ∧ 1 ≤ sampleRepro.count ∧
      sampleRepro.count ≤ 3) ∧
    ((sampleA.reproduce sampleB sampleRepro).1.reproduction_cooldown = 275 ∧
     (sampleA.reproduce sampleB sampleRepro).2.1.reproduction_cooldown = 275 ∧
     1 ≤ (sampleA.reproduce sampleB sampleRepro).2.2.length ∧
     (sampleA.reproduce sampleB sampleRepro).2.2.length ≤ 3 ∧
     ∀ off ∈ (sampleA.reproduce sampleB sampleRepro).2.2,
       off.generation = sampleA.generation + 1 ∧ (10 : ℚ) ≤ off.energy) :=
  ⟨⟨by decide, by decide, by decide, by decide, by decide⟩,
   claim2_reproduce_success_postconditions sampleA sampleB sampleRepro
     (by decide) (by decide) (by decide) (by decide) (by decide)⟩

/-- Claim C3 (confirmed): `reproduce` between same-gender creatures, or with
either participant's cooldown nonzero, returns without changing any state —
no cooldown set, no offspring.  (Cooldowns are never negative in the
program: they start at 0, are only decremented when positive, and are only
otherwise set to 275; the nonnegativity hypotheses record that invariant,
under which the source's `> 0` guard coincides with the claim's
"nonzero".) -/
theorem claim3_reproduce_guard_no_state_change (a b : Creature) (r : ReproRand)
    (hna : 0 ≤ a.reproduction_cooldown) (hnb : 0 ≤ b.reproduction_cooldown)
    (h : a.gender = b.gender ∨ a.reproduction_cooldown ≠ 0 ∨
      b.reproduction_cooldown ≠ 0) :
    a.reproduce b r = (a, b, []) := by
  have hguard : a.gender = b.gender ∨ a.reproduction_cooldown > 0 ∨
      b.reproduction_cooldown > 0 := by
    rcases h with h | h | h
    · exact Or.inl h
    · exact Or.inr (Or.inl (by omega))
    · exact Or.inr (Or.inr (by omega))
  simp only [Creature.reproduce, if_pos hguard]

/-- Witness for C3 at a concrete same-gender attempt. -/
theorem claim3_witness :
    (0 ≤ sampleA.reproduction_cooldown ∧
      0 ≤ sampleSameGender.reproduction_cooldown ∧
      sampleA.gender = sampleSameGender.gender) ∧
    sampleA.reproduce sampleSameGender sampleRepro =
      (sampleA, sampleSameGender, []) :=
  ⟨⟨by decide, by decide, by decide⟩,
   claim3_reproduce_guard_no_state_change sampleA sampleSameGender sampleRepro
     (by decide) (by decide) (Or.inl (by decide))⟩

/-- Claim C10 (confirmed): every offspring produced by `reproduce` has
`hunger = 0` and `reproduction_cooldown = 0` (the constructor defaults; only
`speed` is reassigned afterwards), so a newborn immediately satisfies the
cooldown-eligibility condition (`reproduction_cooldown <= 0`) for being
selected as a mating partner. -/
theorem claim10_offspring_constructor_defaults (a b : Creature) (r : ReproRand) :
    ∀ off ∈ (a.reproduce b r).2.2,
      off.hunger = 0 ∧ off.reproduction_cooldown = 0 ∧
      off.reproduction_cooldown ≤ 0 := by
  intro off hoff
  by_cases hguard : a.gender = b.gender ∨ a.reproduction_cooldown > 0 ∨
      b.reproduction_cooldown > 0
  · simp [Creature.reproduce, if_pos hguard] at hoff
  · simp only [Creature.reproduce, if_neg hguard, List.mem_map,
      List.mem_range] at hoff
    obtain ⟨k, hk, rfl⟩ := hoff
    exact ⟨rfl, rfl, le_refl 0⟩

/-- Witness for C10 at a concrete offspring. -/
theorem claim10_witness :
    (getC (sampleA.reproduce sampleB sampleRepro).2.2 0).hunger = 0 ∧
    (getC (sampleA.reproduce sampleB sampleRepro).2.2 0).reproduction_cooldown
      = 0 ∧
    (getC (sampleA.reproduce sampleB sampleRepro).2.2 0).reproduction_cooldown
      ≤ 0 :=
  claim10_offspring_constructor_defaults sampleA sampleB sampleRepro
    (getC (sampleA.reproduce sampleB sampleRepro).2.2 0)
    (by
      have hguard : ¬ (sampleA.gender = sampleB.gender ∨
          sampleA.reproduction_cooldown > 0 ∨
          sampleB.reproduction_cooldown > 0) := by decide
      simp only [Creature.reproduce, if_neg hguard, getC, List.mem_map,
        List.mem_range]
      refine ⟨0, by norm_num [sampleRepro], ?_⟩
      simp [sampleRepro, List.range_succ])

/-- Claim C8 counterexample: with parents at x-coordinates 0 and 5 the
offspring x-coordinate is the floor-divided 2, not the exact midpoint
5/2 — the source uses `//`. -/
theorem claim8_counterexample :
    (getC (c8a.reproduce c8b c8r).2.2 0).position.1 = 2 ∧
    (c8a.position.1 + c8b.position.1) / 2 = 5/2 ∧
    (getC (c8a.reproduce c8b c8r).2.2 0).position.1 ≠
      (c8a.position.1 + c8b.position.1) / 2 := by
  have hguard : ¬ (c8a.gender = c8b.gender ∨ c8a.reproduction_cooldown > 0 ∨
      c8b.reproduction_cooldown > 0) := by decide
  have hoff : (c8a.reproduce c8b c8r).2.2 =
      [{ energy := 50, position := (2, 0), gender := Gender.male,
         generation := 1, hunger := 0, speed := 1,
         reproduction_cooldown := 0 }] := by
    simp only [Creature.reproduce, if_neg hguard, c8r, List.range_succ,
      List.range_zero, List.nil_append, List.map_cons, List.map_nil]
    norm_num [c8a, c8b, Creature.init, pyInt]
  rw [hoff]
  norm_num [getC, c8a, c8b]

/-- Claim C8 (corrected): each offspring's position is the componentwise
*floor* of the parents' coordinate averages (Python `//` floor division),
which equals the exact midpoint only when the coordinate sums are even
integers. -/
theorem claim8_amended_offspring_position_floor_midpoint (a b : Creature)
    (r : ReproRand) :
    ∀ off ∈ (a.reproduce b r).2.2,
      off.position = (((⌊(a.position.1 + b.position.1) / 2⌋ : ℤ) : ℚ),
        ((⌊(a.position.2 + b.position.2) / 2⌋ : ℤ) : ℚ)) := by
  intro off hoff
  by_cases hguard : a.gender = b.gender ∨ a.reproduction_cooldown > 0 ∨
      b.reproduction_cooldown > 0
  · simp [Creature.reproduce, if_pos hguard] at hoff
  · simp only [Creature.reproduce, if_neg hguard, List.mem_map,
      List.mem_range] at hoff
    obtain ⟨k, hk, rfl⟩ := hoff
    rfl

/-- Witness for the amended C8 at a concrete offspring. -/
theorem claim8_witness :
    (getC (c8a.reproduce c8b c8r).2.2 0).position =
      (((⌊(c8a.position.1 + c8b.position.1) / 2⌋ : ℤ) : ℚ),
       ((⌊(c8a.position.2 + c8b.position.2) / 2⌋ : ℤ) : ℚ)) :=
  claim8_amended_offspring_position_floor_midpoint c8a c8b c8r
    (getC (c8a.reproduce c8b c8r).2.2 0)
    (by
      have hguard : ¬ (c8a.gender = c8b.gender ∨ c8a.reproduction_cooldown > 0 ∨
          c8b.reproduction_cooldown > 0) := by decide
      have hlist : (c8a.reproduce c8b c8r).2.2 =
          [{ energy := 50, position := (2, 0), gender := Gender.male,
             generation := 1, hunger := 0, speed := 1,
             reproduction_cooldown := 0 }] := by
        simp only [Creature.reproduce, if_neg hguard, c8r, List.range_succ,
          List.range_zero, List.nil_append, List.map_cons, List.map_nil]
        norm_num [c8a, c8b, Creature.init, pyInt]
      rw [hlist]
      simp [getC])

/-- Claim C7 (confirmed): for every creature with non-negative hunger, after
`update()` its speed equals `clamp(1 + hunger/100, 1, 5)` (with `hunger` the
creature's post-update hunger), hence `1 ≤ speed ≤ 5`.  (The source computes
`min(5, 1 + hunger/100)`, which coincides with the two-sided clamp whenever
hunger is non-negative — and hunger never goes negative: it starts at 0,
increases each tick, and feeding floors it at 0.) -/
theorem claim7_update_speed_clamp (c : Creature) (h : 0 ≤ c.hunger) :
    c.update.speed = max 1 (min 5 (1 + ((c.update.hunger : ℤ) : ℚ) / 100)) ∧
    1 ≤ c.update.speed ∧ c.update.speed ≤ 5 := by
  rw [Creature.update_eq]
  have hq : (0 : ℚ) ≤ (c.hunger : ℚ) := by exact_mod_cast h
  have hx : (1 : ℚ) ≤ 1 + ((c.hunger + 1 : ℤ) : ℚ) / 100 := by
    push_cast
    linarith
  have hmin : (1 : ℚ) ≤ min 5 (1 + ((c.hunger + 1 : ℤ) : ℚ) / 100) :=
    le_min (by norm_num) hx
  exact ⟨(max_eq_right hmin).symm, hmin, min_le_left _ _⟩

/-- Witness for C7 at a concrete creature. -/
theorem claim7_witness :
    0 ≤ sampleA.hunger ∧
    ((Creature.update sampleA).speed =
      max 1 (min 5 (1 + (((Creature.update sampleA).hunger : ℤ) : ℚ) / 100)) ∧
     1 ≤ (Creature.update sampleA).speed ∧ (Creature.update sampleA).speed ≤ 5) :=
  ⟨by decide, claim7_update_speed_clamp sampleA (by decide)⟩

/-- Claim C6 (confirmed): for a creature inside the world bounds, any
`moveRandomly` (with in-range `randint(-10, 10)` draws) lands inside
`[0, 800] × [0, 600]` and displaces each axis by at most 10 units, and any
`moveTowards` — whatever the target and whatever the distance value — lands
inside `[0, 800] × [0, 600]` (both moves clamp). -/
theorem claim6_moves_stay_in_bounds (c : Creature) (dx dy : ℤ)
    (hpos : inBounds c.position) (hdx : |dx| ≤ 10) (hdy : |dy| ≤ 10) :
    inBounds (c.moveRandomly dx dy).position ∧
    |(c.moveRandomly dx dy).position.1 - c.position.1| ≤ 10 ∧
    |(c.moveRandomly dx dy).position.2 - c.position.2| ≤ 10 ∧
    ∀ target dist, inBounds ((c.moveTowards target dist).position) := by
  obtain ⟨h1, h2, h3, h4⟩ := hpos
  have hW : (0 : ℚ) ≤ SCREEN_WIDTH := by norm_num [SCREEN_WIDTH]
  have hH : (0 : ℚ) ≤ SCREEN_HEIGHT := by norm_num [SCREEN_HEIGHT]
  have hdxq : |(dx : ℚ)| ≤ 10 := by exact_mod_cast hdx
  have hdyq : |(dy : ℚ)| ≤ 10 := by exact_mod_cast hdy
  refine ⟨⟨?_, ?_, ?_, ?_⟩, ?_, ?_, ?_⟩
  · exact (clamp_bounds _ _ hW).1
  · exact (clamp_bounds _ _ hW).2
  · exact (clamp_bounds _ _ hH).1
  · exact (clamp_bounds _ _ hH).2
  · calc |(c.moveRandomly dx dy).position.1 - c.position.1|
        ≤ |(c.position.1 + (dx : ℚ)) - c.position.1| :=
          clamp_close SCREEN_WIDTH c.position.1 (c.position.1 + (dx : ℚ)) h1 h2
      _ = |(dx : ℚ)| := by ring_nf
      _ ≤ 10 := hdxq
  · calc |(c.moveRandomly dx dy).position.2 - c.position.2|
        ≤ |(c.position.2 + (dy : ℚ)) - c.position.2| :=
          clamp_close SCREEN_HEIGHT c.position.2 (c.position.2 + (dy : ℚ)) h3 h4
      _ = |(dy : ℚ)| := by ring_nf
      _ ≤ 10 := hdyq
  · intro target dist
    exact ⟨(clamp_bounds _ _ hW).1, (clamp_bounds _ _ hW).2,
      (clamp_bounds _ _ hH).1, (clamp_bounds _ _ hH).2⟩

/-- Witness for C6 at a concrete creature, displacement, target and
distance. -/
theorem claim6_witness :
    (inBounds sampleA.position ∧ |(5 : ℤ)| ≤ 10 ∧ |(-7 : ℤ)| ≤ 10) ∧
    (inBounds (sampleA.moveRandomly 5 (-7)).position ∧
     |(sampleA.moveRandomly 5 (-7)).position.1 - sampleA.position.1| ≤ 10 ∧
     |(sampleA.moveRandomly 5 (-7)).position.2 - sampleA.position.2| ≤ 10 ∧
     inBounds ((sampleA.moveTowards (700, 20) 3).position)) :=
  ⟨⟨by norm_num [inBounds, sampleA, SCREEN_WIDTH, SCREEN_HEIGHT],
    by decide, by decide⟩,
   ⟨(claim6_moves_stay_in_bounds sampleA 5 (-7)
       (by norm_num [inBounds, sampleA, SCREEN_WIDTH, SCREEN_HEIGHT])
       (by decide) (by decide)).1,
    (claim6_moves_stay_in_bounds sampleA 5 (-7)
       (by norm_num [inBounds, sampleA, SCREEN_WIDTH, SCREEN_HEIGHT])
       (by decide) (by decide)).2.1,
    (claim6_moves_stay_in_bounds sampleA 5 (-7)
       (by norm_num [inBounds, sampleA, SCREEN_WIDTH, SCREEN_HEIGHT])
       (by decide) (by decide)).2.2.1,
    (claim6_moves_stay_in_bounds sampleA 5 (-7)
       (by norm_num [inBounds, sampleA, SCREEN_WIDTH, SCREEN_HEIGHT])
       (by decide) (by decide)).2.2.2 (700, 20) 3⟩⟩

/-- Claim C5 (confirmed): starting from any food collection at or below the
cap of 50 (the only reachable states: the collection starts empty, only
`spawn_food` appends, and it stops at the cap), `spawn_food` ends with
exactly 50 items — in particular never more than 50, and a top-up to
exactly 50 whenever fewer existed — and every appended item carries an
integer energy in `[3, 7]` and a position within bounds minus the 10-unit
food footprint (`randint(0, dim - 10)` draws). -/
theorem claim5_spawn_food_cap (fs : List Food) (fr : ℕ → FoodRand)
    (hlen : fs.length ≤ 50)
    (hr : ∀ k, 3 ≤ (fr k).e ∧ (fr k).e ≤ 7 ∧ 0 ≤ (fr k).x ∧ (fr k).x ≤ 790 ∧
      0 ≤ (fr k).y ∧ (fr k).y ≤ 590) :
    (spawn_food fs fr).length = 50 ∧ (spawn_food fs fr).length ≤ 50 ∧
    ∀ f ∈ (spawn_food fs fr).drop fs.length,
      (∃ n : ℤ, f.energyContent = (n : ℚ) ∧ 3 ≤ n ∧ n ≤ 7) ∧
      0 ≤ f.position.1 ∧ f.position.1 ≤ 790 ∧
      0 ≤ f.position.2 ∧ f.position.2 ≤ 590 := by
  have hlen50 : (spawn_food fs fr).length = 50 :=
    spawnAux_length fr (50 - fs.length) 0 fs (by omega)
  refine ⟨hlen50, by omega, ?_⟩
  obtain ⟨t, ht, hm⟩ := spawnAux_append fr (50 - fs.length) 0 fs
  intro f hf
  rw [spawn_food] at hf
  rw [ht, List.drop_left] at hf
  obtain ⟨j, rfl⟩ := hm f hf
  obtain ⟨he3, he7, hx0, hx790, hy0, hy590⟩ := hr j
  simp only [mkFood]
  refine ⟨⟨(fr j).e, rfl, he3, he7⟩, ?_, ?_, ?_, ?_⟩
  · exact_mod_cast hx0
  · exact_mod_cast hx790
  · exact_mod_cast hy0
  · exact_mod_cast hy590

/-- Witness for C5 from the empty food collection with constant in-range
draws. -/
theorem claim5_witness :
    (([] : List Food).length ≤ 50 ∧
     (∀ k : ℕ, 3 ≤ (sampleFoodRand k).e ∧ (sampleFoodRand k).e ≤ 7 ∧
       0 ≤ (sampleFoodRand k).x ∧ (sampleFoodRand k).x ≤ 790 ∧
       0 ≤ (sampleFoodRand k).y ∧ (sampleFoodRand k).y ≤ 590)) ∧
    ((spawn_food [] sampleFoodRand).length = 50 ∧
     (spawn_food [] sampleFoodRand).length ≤ 50 ∧
     ∀ f ∈ (spawn_food [] sampleFoodRand).drop ([] : List Food).length,
       (∃ n : ℤ, f.energyContent = (n : ℚ) ∧ 3 ≤ n ∧ n ≤ 7) ∧
       0 ≤ f.position.1 ∧ f.position.1 ≤ 790 ∧
       0 ≤ f.position.2 ∧ f.position.2 ≤ 590) :=
  ⟨⟨by decide, fun k => by norm_num [sampleFoodRand]⟩,
   claim5_spawn_food_cap [] sampleFoodRand (by decide)
     (fun k => by norm_num [sampleFoodRand])⟩

/-- Claim C1 (corrected): a creature whose post-update energy is at or below
−300 *is* removed from the creature collection within the same tick (its
slot is erased, its state never written back), but `manage` still invokes
`seekFood` on the dead object afterwards — here, with a single food item it
overlaps after the move, the dead creature eats it, removing it from the
food collection. -/
theorem claim1_amended_dead_creature_removed_but_still_acts
    (sq : ℚ → ℚ) (r : SeekRand) (st : EcoState) (i : ℕ) (c : Creature) (f : Food)
    (hc : st.creatures.get? i = some c)
    (hd : c.update.energy ≤ ENERGY_THRESHOLD_FOR_DEATH)
    (hh : c.update.hunger < 50)
    (hf : st.foods = [f])
    (_hsq0 : 0 ≤ sq (dist_sq c.update.position f.position))
    (_hsq2 : (sq (dist_sq c.update.position f.position)) ^ 2 =
      dist_sq c.update.position f.position)
    (hov : f.isOverlapping
      ((c.update.moveTowards f.position
        (sq (dist_sq c.update.position f.position))).position)) :
    (manageBody sq r st i).creatures =
      (st.creatures.set i c.update).eraseIdx i ∧
    (manageBody sq r st i).foods = [] := by
  rw [manageBody_dead sq r st i c hc hd]
  rw [seekFood_notHungry sq r c.update _ (by simp [hf]) hh]
  rw [seekFoodForage_single sq c.update _ f (by simp [hf])]
  rw [if_pos hov]
  exact ⟨rfl, rfl⟩

/-- Witness for the amended C1: the concrete dying creature of the C1
scenario, sitting on the only food item. -/
theorem claim1_witness :
    (c1creature.update.energy ≤ ENERGY_THRESHOLD_FOR_DEATH ∧
     c1creature.update.hunger < 50) ∧
    ((manageBody c1sq (c1rand 0) c1state 0).creatures =
       (c1state.creatures.set 0 c1creature.update).eraseIdx 0 ∧
     (manageBody c1sq (c1rand 0) c1state 0).foods = []) :=
  ⟨⟨by rw [Creature.update_eq]; norm_num [c1creature, ENERGY_THRESHOLD_FOR_DEATH],
    by decide⟩,
   claim1_amended_dead_creature_removed_but_still_acts c1sq (c1rand 0) c1state
     0 c1creature c1food rfl
     (by rw [Creature.update_eq]; norm_num [c1creature, ENERGY_THRESHOLD_FOR_DEATH])
     (by decide) rfl
     (by norm_num [c1sq])
     (by rw [Creature.update_eq]; norm_num [c1sq, dist_sq, c1creature, c1food])
     (by rw [Creature.update_eq]
         norm_num [c1sq, dist_sq, c1creature, c1food, Creature.moveTowards,
           Food.isOverlapping, SCREEN_WIDTH, SCREEN_HEIGHT, min_def, max_def,
           abs_lt])⟩

/-- Claim C1 counterexample: in the concrete C1 scenario the dying creature
is removed within the tick, yet — contrary to "no further action is taken on
that creature" — its still-running `seekFood` eats the only food item: after
the tick the original food item is gone from the food collection (spawned
replacements all differ from it), which could not happen had the dead
creature taken no action, since `spawn_food` only appends. -/
theorem claim1_counterexample :
    c1creature.update.energy ≤ ENERGY_THRESHOLD_FOR_DEATH ∧
    c1result.creatures = [] ∧
    c1food ∉ c1result.foods := by
  have hd : c1creature.update.energy ≤ ENERGY_THRESHOLD_FOR_DEATH := by
    rw [Creature.update_eq]
    norm_num [c1creature, ENERGY_THRESHOLD_FOR_DEATH]
  have hov : c1food.isOverlapping
      ((c1creature.update.moveTowards c1food.position
        (c1sq (dist_sq c1creature.update.position c1food.position))).position) := by
    rw [Creature.update_eq]
    norm_num [c1sq, dist_sq, c1creature, c1food, Creature.moveTowards,
      Food.isOverlapping, SCREEN_WIDTH, SCREEN_HEIGHT, min_def, max_def, abs_lt]
  have hbody : manageBody c1sq (c1rand 0) c1state 0 = ⟨[], []⟩ := by
    rw [manageBody_dead c1sq (c1rand 0) c1state 0 c1creature rfl hd]
    rw [seekFood_notHungry c1sq (c1rand 0) c1creature.update
      { c1state with
        creatures := (c1state.creatures.set 0 c1creature.update).eraseIdx 0 }
      rfl (by decide)]
    rw [seekFoodForage_single c1sq c1creature.update
      { c1state with
        creatures := (c1state.creatures.set 0 c1creature.update).eraseIdx 0 }
      c1food rfl]
    rw [if_pos hov]
    rfl
  have hloop : manageLoop c1sq c1rand 5 c1state 0 = ⟨[], []⟩ := by
    rw [show (5 : ℕ) = 4 + 1 from rfl, manageLoop_succ,
      if_pos (by simp [c1state]), hbody]
    rw [show (4 : ℕ) = 3 + 1 from rfl, manageLoop_succ,
      if_neg (by simp)]
  have hcre : c1result.creatures = (manageLoop c1sq c1rand 5 c1state 0).creatures :=
    rfl
  have hfoods : c1result.foods =
      spawn_food (manageLoop c1sq c1rand 5 c1state 0).foods c1foodRand := rfl
  refine ⟨hd, by rw [hcre, hloop], ?_⟩
  rw [hfoods, hloop]
  obtain ⟨t, ht, hm⟩ := spawnAux_append c1foodRand (50 - ([] : List Food).length) 0 []
  rw [spawn_food, ht, List.nil_append]
  intro hmem
  obtain ⟨j, hj⟩ := hm c1food hmem
  simp [c1food, mkFood, c1foodRand, Food.mk.injEq] at hj

/-- Claim C4 (corrected): with *no food present*, `seekFood`'s empty-food
early return fires before the mating check is ever reached, so two
opposite-gender, hungry, adjacent creatures do not reproduce: after one
tick of `manage` both have simply moved randomly, both cooldowns are still
0, and the creature collection has gained nothing. -/
theorem claim4_amended_no_food_means_no_reproduction
    (sq : ℚ → ℚ) (rs : ℕ → SeekRand) (fr : ℕ → FoodRand) (a b : Creature)
    (hla : ¬ a.update.energy ≤ ENERGY_THRESHOLD_FOR_DEATH)
    (hlb : ¬ b.update.energy ≤ ENERGY_THRESHOLD_FOR_DEATH)
    (ha0 : a.reproduction_cooldown = 0) (hb0 : b.reproduction_cooldown = 0) :
    (manage sq rs fr 3 ⟨[a, b], []⟩).creatures =
      [a.update.moveRandomly (rs 0).dx (rs 0).dy,
       b.update.moveRandomly (rs 1).dx (rs 1).dy] ∧
    (getC (manage sq rs fr 3 ⟨[a, b], []⟩).creatures 0).reproduction_cooldown
      = 0 ∧
    (getC (manage sq rs fr 3 ⟨[a, b], []⟩).creatures 1).reproduction_cooldown
      = 0 := by
  have hstep0 : manageBody sq (rs 0) ⟨[a, b], []⟩ 0 =
      ⟨[a.update.moveRandomly (rs 0).dx (rs 0).dy, b], []⟩ := by
    rw [manageBody_alive_noFood sq (rs 0) ⟨[a, b], []⟩ 0 a rfl hla rfl]
    rfl
  have hstep1 : manageBody sq (rs 1)
      ⟨[a.update.moveRandomly (rs 0).dx (rs 0).dy, b], []⟩ 1 =
      ⟨[a.update.moveRandomly (rs 0).dx (rs 0).dy,
        b.update.moveRandomly (rs 1).dx (rs 1).dy], []⟩ := by
    rw [manageBody_alive_noFood sq (rs 1)
      ⟨[a.update.moveRandomly (rs 0).dx (rs 0).dy, b], []⟩ 1 b rfl hlb rfl]
    rfl
  have hloop : manageLoop sq rs 3 ⟨[a, b], []⟩ 0 =
      ⟨[a.update.moveRandomly (rs 0).dx (rs 0).dy,
        b.update.moveRandomly (rs 1).dx (rs 1).dy], []⟩ := by
    rw [show (3 : ℕ) = 2 + 1 from rfl, manageLoop_succ, if_pos (by simp),
      hstep0]
    rw [show (2 : ℕ) = 1 + 1 from rfl, manageLoop_succ, if_pos (by simp),
      hstep1]
    rw [show (1 : ℕ) = 0 + 1 from rfl, manageLoop_succ, if_neg (by simp)]
  have hcre : (manage sq rs fr 3 ⟨[a, b], []⟩).creatures =
      (manageLoop sq rs 3 ⟨[a, b], []⟩ 0).creatures := rfl
  rw [hcre, hloop]
  refine ⟨rfl, ?_, ?_⟩
  · show (a.update.moveRandomly (rs 0).dx (rs 0).dy).reproduction_cooldown = 0
    simp [Creature.moveRandomly, Creature.update_eq, ha0]
  · show (b.update.moveRandomly (rs 1).dx (rs 1).dy).reproduction_cooldown = 0
    simp [Creature.moveRandomly, Creature.update_eq, hb0]

/-- Witness for the amended C4: the concrete C4 scenario creatures. -/
theorem claim4_witness :
    (¬ c4a.update.energy ≤ ENERGY_THRESHOLD_FOR_DEATH ∧
     ¬ c4b.update.energy ≤ ENERGY_THRESHOLD_FOR_DEATH ∧
     c4a.reproduction_cooldown = 0 ∧ c4b.reproduction_cooldown = 0) ∧
    ((manage c4sq c4rand c4foodRand 3 ⟨[c4a, c4b], []⟩).creatures =
       [c4a.update.moveRandomly (c4rand 0).dx (c4rand 0).dy,
        c4b.update.moveRandomly (c4rand 1).dx (c4rand 1).dy] ∧
     (getC (manage c4sq c4rand c4foodRand 3 ⟨[c4a, c4b], []⟩).creatures
        0).reproduction_cooldown = 0 ∧
     (getC (manage c4sq c4rand c4foodRand 3 ⟨[c4a, c4b], []⟩).creatures
        1).reproduction_cooldown = 0) :=
  ⟨⟨by rw [Creature.update_eq]
       norm_num [c4a, ENERGY_THRESHOLD_FOR_DEATH],
    by rw [Creature.update_eq]
       norm_num [c4b, ENERGY_THRESHOLD_FOR_DEATH],
    by decide, by decide⟩,
   claim4_amended_no_food_means_no_reproduction c4sq c4rand c4foodRand c4a c4b
     (by rw [Creature.update_eq]
         norm_num [c4a, ENERGY_THRESHOLD_FOR_DEATH])
     (by rw [Creature.update_eq]
         norm_num [c4b, ENERGY_THRESHOLD_FOR_DEATH])
     (by decide) (by decide)⟩

/-- Claim C4 counterexample: the scenario's premises hold at the concrete
input (opposite genders, hunger 60, cooldowns 0, 5 units apart — squared
distance 25 ≤ 100 — and no food), yet after one tick of `manage` neither
cooldown is 275 and the collection still has exactly 2 creatures, so no
reproduction happened and no offspring were appended. -/
theorem claim4_counterexample :
    c4a.gender ≠ c4b.gender ∧
    dist_sq c4a.position c4b.position ≤ REPRODUCTION_DISTANCE_THRESHOLD ^ 2 ∧
    (getC c4result.creatures 0).reproduction_cooldown ≠ 275 ∧
    (getC c4result.creatures 1).reproduction_cooldown ≠ 275 ∧
    c4result.creatures.length = 2 := by
  have hla : ¬ c4a.update.energy ≤ ENERGY_THRESHOLD_FOR_DEATH := by
    rw [Creature.update_eq]
    norm_num [c4a, ENERGY_THRESHOLD_FOR_DEATH]
  have hlb : ¬ c4b.update.energy ≤ ENERGY_THRESHOLD_FOR_DEATH := by
    rw [Creature.update_eq]
    norm_num [c4b, ENERGY_THRESHOLD_FOR_DEATH]
  have hstep0 : manageBody c4sq (c4rand 0) c4state 0 =
      ⟨[c4a.update.moveRandomly 0 0, c4b], []⟩ := by
    rw [manageBody_alive_noFood c4sq (c4rand 0) c4state 0 c4a rfl hla rfl]
    rfl
  have hstep1 : manageBody c4sq (c4rand 1)
      ⟨[c4a.update.moveRandomly 0 0, c4b], []⟩ 1 =
      ⟨[c4a.update.moveRandomly 0 0, c4b.update.moveRandomly 0 0], []⟩ := by
    rw [manageBody_alive_noFood c4sq (c4rand 1)
      ⟨[c4a.update.moveRandomly 0 0, c4b], []⟩ 1 c4b rfl hlb rfl]
    rfl
  have hloop : manageLoop c4sq c4rand 5 c4state 0 =
      ⟨[c4a.update.moveRandomly 0 0, c4b.update.moveRandomly 0 0], []⟩ := by
    rw [show (5 : ℕ) = 4 + 1 from rfl, manageLoop_succ,
      if_pos (by simp [c4state]), hstep0]
    rw [show (4 : ℕ) = 3 + 1 from rfl, manageLoop_succ, if_pos (by simp),
      hstep1]
    rw [show (3 : ℕ) = 2 + 1 from rfl, manageLoop_succ, if_neg (by simp)]
  have hcre : c4result.creatures = (manageLoop c4sq c4rand 5 c4state 0).creatures :=
    rfl
  rw [hcre, hloop]
  refine ⟨by decide, by norm_num [dist_sq, c4a, c4b,
    REPRODUCTION_DISTANCE_THRESHOLD], ?_, ?_, rfl⟩
  · show (c4a.update.moveRandomly 0 0).reproduction_cooldown ≠ 275
    simp [Creature.moveRandomly, Creature.update_eq, c4a]
  · show (c4b.update.moveRandomly 0 0).reproduction_cooldown ≠ 275
    simp [Creature.moveRandomly, Creature.update_eq, c4b]

/-- The C9 scenario's simulation-loop state after one tick: the creature
has hunger 1, energy 99.5, speed recomputed to 1.01, position moved east by
exactly 1.01 units; the food item is untouched. -/
theorem c9_loop_state :
    manageLoop c9sq c9rand 5 c9state 0 =
      ⟨[{ energy := 199/2, position := (10101/100, 100), gender := Gender.male,
          generation := 0, hunger := 1, speed := 101/100,
          reproduction_cooldown := 0 }], [c9food]⟩ := by
  have hupd : c9creature.update =
      { energy := 199/2, position := (100, 100), gender := Gender.male,
        generation := 0, hunger := 1, speed := 101/100,
        reproduction_cooldown := 0 } := by
    rw [Creature.update_eq]
    norm_num [c9creature, min_def]
  have hl : ¬ c9creature.update.energy ≤ ENERGY_THRESHOLD_FOR_DEATH := by
    rw [hupd]
    norm_num [ENERGY_THRESHOLD_FOR_DEATH]
  have hmove : c9creature.update.moveTowards c9food.position
      (c9sq (dist_sq c9creature.update.position c9food.position)) =
      { energy := 199/2, position := (10101/100, 100), gender := Gender.male,
        generation := 0, hunger := 1, speed := 101/100,
        reproduction_cooldown := 0 } := by
    rw [hupd]
    norm_num [Creature.moveTowards, c9food, c9sq, dist_sq, SCREEN_WIDTH,
      SCREEN_HEIGHT, min_def, max_def]
  have hbody : manageBody c9sq (c9rand 0) c9state 0 =
      ⟨[{ energy := 199/2, position := (10101/100, 100), gender := Gender.male,
          generation := 0, hunger := 1, speed := 101/100,
          reproduction_cooldown := 0 }], [c9food]⟩ := by
    rw [manageBody_alive c9sq (c9rand 0) c9state 0 c9creature rfl hl]
    rw [seekFood_notHungry c9sq (c9rand 0) c9creature.update
      { c9state with creatures := c9state.creatures.set 0 c9creature.update }
      rfl (by decide)]
    rw [seekFoodForage_single c9sq c9creature.update
      { c9state with creatures := c9state.creatures.set 0 c9creature.update }
      c9food rfl]
    rw [hmove]
    rw [if_neg (by norm_num [Food.isOverlapping, c9food, abs_lt])]
    rfl
  rw [show (5 : ℕ) = 4 + 1 from rfl, manageLoop_succ,
    if_pos (by simp [c9state]), hbody]
  rw [show (4 : ℕ) = 3 + 1 from rfl, manageLoop_succ, if_neg (by simp)]

/-- Claim C9 counterexample: in the concrete scenario (creature at x = 100,
hunger 0, energy 100, food 200 units directly east) the creature ends the
tick at x = 100 + 1.01, not at x = 100 + 1: the tick's `update` raises
hunger to 1 and recomputes speed to 1.01 *before* the move, so the creature
does not move east by "speed = 1" as claimed. -/
theorem claim9_counterexample :
    (getC c9result.creatures 0).position.1 = c9creature.position.1 + 101/100 ∧
    (getC c9result.creatures 0).position.1 ≠ c9creature.position.1 + 1 := by
  have hcre : c9result.creatures =
      (manageLoop c9sq c9rand 5 c9state 0).creatures := rfl
  rw [hcre, c9_loop_state]
  norm_num [getC, c9creature]

/-- Claim C9 (corrected): after one tick of the scenario, hunger is 1 and
energy is 99.5 and the food is still present as claimed, but the position
has moved east by 1.01 units — the speed recomputed from the post-update
hunger — rather than by 1 unit. -/
theorem claim9_amended_one_tick_scenario :
    (getC c9result.creatures 0).hunger = 1 ∧
    (getC c9result.creatures 0).energy = 199/2 ∧
    (getC c9result.creatures 0).position =
      (c9creature.position.1 + 101/100, c9creature.position.2) ∧
    c9food ∈ c9result.foods := by
  have hcre : c9result.creatures =
      (manageLoop c9sq c9rand 5 c9state 0).creatures := rfl
  refine ⟨?_, ?_, ?_, ?_⟩
  · rw [hcre, c9_loop_state]; norm_num [getC]
  · rw [hcre, c9_loop_state]; norm_num [getC]
  · rw [hcre, c9_loop_state]; norm_num [getC, c9creature]
  · have hfoods : c9result.foods =
        spawn_food (manageLoop c9sq c9rand 5 c9state 0).foods c9foodRand := rfl
    rw [hfoods, c9_loop_state]
    obtain ⟨t, ht, hm⟩ := spawnAux_append c9foodRand (50 - [c9food].length) 0 [c9food]
    rw [spawn_food, ht]
    exact List.mem_append_left _ (List.mem_singleton_self _)
